import Mathlib

/-!
Verification of the request validation, authorization and prediction
orchestration pipeline of `src/model_server.py` (model-http-api).

The Python source is shallowly embedded: each helper of the source file
(`verify_token`, `validate_content_length`, `is_invisible`, `record_result`,
`predict`, `predict_endpoint`) becomes a Lean definition of the same name.
Machine floats are modelled by rationals; the opaque fastai model
(`learn.predict`) is an explicit function parameter; side effects (the
record file append, the stderr log, the argument of the model call) are
made visible in an explicit trace returned by the request handler.
-/

namespace ModelServer

/-- Models Python `str.isprintable` applied to a single character: a
character is printable unless its Unicode general category is one of
Cc, Cf, Cs, Co, Cn, Zl, Zp or Zs, with the exception that U+0020 SPACE
is printable.  The table below covers the control, separator and format
code points below U+FFFF that the server's inputs can exercise; all
remaining code points are treated as ordinary printable characters. -/
def pyIsPrintable (c : Char) : Bool :=
  let n := c.toNat
  if n < 0x20 then false                          -- C0 controls (Cc)
  else if n = 0x20 then true                      -- SPACE, printable by definition
  else if n < 0x7f then true                      -- printable ASCII
  else if n ≤ 0x9f then false                     -- DEL and C1 controls (Cc)
  else if n = 0xa0 then false                     -- NO-BREAK SPACE (Zs)
  else if n = 0xad then false                     -- SOFT HYPHEN (Cf)
  else if n = 0x1680 then false                   -- OGHAM SPACE MARK (Zs)
  else if 0x2000 ≤ n ∧ n ≤ 0x200a then false      -- typographic spaces (Zs)
  else if 0x200b ≤ n ∧ n ≤ 0x200f then false      -- zero-width and direction marks (Cf)
  else if n = 0x2028 then false                   -- LINE SEPARATOR (Zl)
  else if n = 0x2029 then false                   -- PARAGRAPH SEPARATOR (Zp)
  else if 0x202a ≤ n ∧ n ≤ 0x202e then false      -- bidi controls (Cf)
  else if n = 0x202f then false                   -- NARROW NO-BREAK SPACE (Zs)
  else if n = 0x205f then false                   -- MEDIUM MATHEMATICAL SPACE (Zs)
  else if 0x2060 ≤ n ∧ n ≤ 0x2064 then false      -- invisible operators (Cf)
  else if 0x2066 ≤ n ∧ n ≤ 0x206f then false      -- bidi isolates (Cf)
  else if n = 0x3000 then false                   -- IDEOGRAPHIC SPACE (Zs)
  else if 0xd800 ≤ n ∧ n ≤ 0xdfff then false      -- surrogates (Cs)
  else if 0xe000 ≤ n ∧ n ≤ 0xf8ff then false      -- private use (Co)
  else if n = 0xfeff then false                   -- ZERO WIDTH NO-BREAK SPACE (Cf)
  else if 0xfff9 ≤ n ∧ n ≤ 0xfffb then false      -- interlinear annotations (Cf)
  else true

/-- `is_invisible` of src/model_server.py, line 58:
`return not any(char.isprintable() for char in content)`. -/
def is_invisible (content : String) : Bool :=
  !(content.data.any pyIsPrintable)

/-- `validate_content_length` of src/model_server.py, line 54, with the
module-level configuration value `max_content_length` passed explicitly:
`return content[:max_content_length] if len(content) > max_content_length else content`. -/
def validate_content_length (maxContentLength : Nat) (content : String) : String :=
  if content.length > maxContentLength then content.take maxContentLength else content

/-- Round a rational to the nearest integer, ties to the even integer:
the rounding used by Python `"{:.4f}".format`. -/
def roundHalfEven (x : ℚ) : ℤ :=
  if x - ⌊x⌋ < 1/2 then ⌊x⌋
  else if 1/2 < x - ⌊x⌋ then ⌊x⌋ + 1
  else if ⌊x⌋ % 2 = 0 then ⌊x⌋ else ⌊x⌋ + 1

/-- Models `float("{:.4f}".format(p))` of src/model_server.py line 75:
the probability rounded to exactly 4 decimal places, half to even. -/
def format4 (p : ℚ) : ℚ :=
  (roundHalfEven (p * 10000) : ℚ) / 10000

/-- Decimal rendering of a (nonnegative, 4-decimal) score, as Python
`str`/f-string formatting renders such a float: integer part, a dot, and
the fractional digits with trailing zeros removed (at least one digit).
Used for the `f"{note}\t{score}\n"` record line. -/
def pyFloatStr (q : ℚ) : String :=
  let ip : Nat := q.floor.toNat
  let frac : Nat := ((q - q.floor) * 10000).floor.toNat
  let ds := [frac / 1000, frac / 100 % 10, frac / 10 % 10, frac % 10]
  let trimmed := (ds.reverse.dropWhile (fun d => d = 0)).reverse
  let fracStr := if trimmed.isEmpty then "0" else String.mk (trimmed.map Nat.digitChar)
  toString ip ++ "." ++ fracStr

/-- The three ContentValidator failure kinds of the spec (section 7). -/
inductive ValidationError
  | MissingInput
  | TooShort
  | InvisibleContent
  deriving DecidableEq, Repr

/-- The `detail` message attached to each validation failure
(src/model_server.py lines 91, 94, 97). -/
def ValidationError.message : ValidationError → String
  | .MissingInput => "Note is required"
  | .TooShort => "Note is too short"
  | .InvisibleContent => "Note contains only invisible characters"

/-- The three sequential checks of `predict_endpoint`
(src/model_server.py lines 90-97), short-circuiting on first failure:
`if not note` (a Python string is falsy iff empty), `if len(note) < 3`,
`if is_invisible(note)`.  Returns the first failure, if any. -/
def validateNote (note : String) : Option ValidationError :=
  if note = "" then some .MissingInput
  else if note.length < 3 then some .TooShort
  else if is_invisible note then some .InvisibleContent
  else none

/-- Result of the opaque fastai call `learn.predict(text)`: a triple of
the predicted label, the index of that label, and the probability
distribution over labels (spec section 6: `predict(text) ->
(label, distribution_indexed_by_label, chosen_index)`). -/
structure Prediction where
  label : String
  idx : Nat
  probs : List ℚ
  deriving Repr

/-- The opaque, deterministic model capability supplied at startup. -/
def Model := String → Prediction

/-- `prediction[2][prediction[1]].item()` of src/model_server.py line 75:
the model's probability for the predicted label (0 if the index is out
of range, a case the source would turn into an exception). -/
def modelScore (m : Model) (text : String) : ℚ :=
  ((m text).probs.getD (m text).idx 0)

/-- Result of `predict` (src/model_server.py lines 71-76).  `modelInput`
records the argument actually passed to `learn.predict`, so that theorems
can speak about the text the model receives. -/
structure PredictOut where
  label : String
  score : ℚ
  modelInput : String
  deriving Repr

/-- `predict` of src/model_server.py lines 71-76:
truncate, call the model, extract label and 4-decimal rounded score. -/
def predict (m : Model) (maxContentLength : Nat) (content : String) : PredictOut :=
  let truncated := validate_content_length maxContentLength content
  { label := (m truncated).label
    score := format4 (modelScore m truncated)
    modelInput := truncated }

/-- `record_result` of src/model_server.py lines 62-68, with the write
outcome made explicit: `writeError = none` means the append succeeds,
`writeError = some e` means `open`/`write` raises with message `e`.
Returns the lines appended to the record file and the messages printed
to stderr. -/
def record_result (recordEnabled : Bool) (writeError : Option String)
    (note : String) (score : ℚ) : List String × List String :=
  if recordEnabled then
    match writeError with
    | none => ([note ++ "\t" ++ pyFloatStr score ++ "\n"], [])
    | some e => ([], ["Record failed: " ++ e])
  else ([], [])

/-- A JSON response body: `detail` is FastAPI's `HTTPException` payload,
`error` is the catch-all `JSONResponse(content={"error": str(e)}, 500)`,
`result` is the success payload `{"label": label, "score": score}`. -/
inductive RespBody
  | detail (msg : String)
  | error (msg : String)
  | result (label : String) (score : ℚ)
  deriving DecidableEq, Repr

/-- An HTTP response: status code and JSON body. -/
structure Response where
  status : Nat
  body : RespBody
  deriving DecidableEq, Repr

/-- Observable per-request effects: whether the ContentValidator checks
ran, the argument of the `learn.predict` call if it was made, the lines
appended to the record file and the stderr messages. -/
structure Trace where
  validatorRan : Bool
  predictInput : Option String
  recorded : List String
  errLog : List String
  deriving DecidableEq, Repr

/-- The request body as the handler sees it: either `request.json()`
raises (malformed body), or it yields an object whose `note` field is
present (`some s`) or absent (`none`). -/
inductive ReqBody
  | malformed (err : String)
  | json (noteField : Option String)

/-- Response together with the request's observable side effects. -/
structure RequestOutcome where
  response : Response
  trace : Trace
  deriving DecidableEq, Repr

/-- Process-wide state of src/model_server.py: the configured token
list, the recording flag, the maximum content length, the loaded model,
and the outcome the OS gives a record-file append (an environment
parameter, `none` = success). -/
structure Env where
  tokens : List String
  recordEnabled : Bool
  maxContentLength : Nat
  model : Model
  writeError : Option String

/-- `verify_token` of src/model_server.py lines 46-51, together with the
`HTTPBearer` dependency: a missing credential is rejected by `HTTPBearer`
with 403 "Not authenticated"; a credential not in `tokens` raises
`HTTPException(403, "Invalid or missing token")`.  Returns the failure
response, or `none` when the credential is accepted. -/
def verify_token (tokens : List String) (cred : Option String) : Option Response :=
  match cred with
  | none => some { status := 403, body := .detail "Not authenticated" }
  | some c =>
    if c ∈ tokens then none
    else some { status := 403, body := .detail "Invalid or missing token" }

/-- Python `str(HTTPException(code, detail))`, i.e. Starlette's
`f"{status_code}: {detail}"`: the string the catch-all handler puts in
the 500 error body when it catches a raised `HTTPException`. -/
def httpExcStr (code : Nat) (detail : String) : String :=
  toString code ++ ": " ++ detail

/-- An empty trace: nothing past the authorizer ran. -/
def Trace.none : Trace :=
  { validatorRan := false, predictInput := Option.none, recorded := [], errLog := [] }

/-- `predict_endpoint` of src/model_server.py lines 84-106.  The
`verify_token` dependency runs before the handler body; inside the body a
`try` block parses the JSON, extracts `note` (default `""`), runs the
three validation checks (each raising `HTTPException(400, msg)`), calls
`predict`, calls `record_result` and returns 200 — and the
`except Exception` clause catches every exception raised inside the
block, including the validation `HTTPException`s, and returns
`JSONResponse({"error": str(e)}, 500)`. -/
def predict_endpoint (env : Env) (cred : Option String) (body : ReqBody) : RequestOutcome :=
  match verify_token env.tokens cred with
  | some resp => { response := resp, trace := Trace.none }
  | Option.none =>
    match body with
    | .malformed err =>
      { response := { status := 500, body := .error err }, trace := Trace.none }
    | .json noteField =>
      let note := noteField.getD ""
      match validateNote note with
      | some e =>
        { response := { status := 500, body := .error (httpExcStr 400 e.message) }
          trace := { validatorRan := true, predictInput := Option.none,
                     recorded := [], errLog := [] } }
      | Option.none =>
        let p := predict env.model env.maxContentLength note
        let rec_ := record_result env.recordEnabled env.writeError note p.score
        { response := { status := 200, body := .result p.label p.score }
          trace := { validatorRan := true, predictInput := some p.modelInput,
                     recorded := rec_.1, errLog := rec_.2 } }

/-! Concrete instances used to exercise the theorems, matching the
scenario of spec section 8: token `"abc123"` configured, a model that
answers label `"positive"` with probability `0.9234567`. -/

/-- A deterministic demo model: label `"positive"`, probability `0.9234567`. -/
def demoModel : Model := fun _ =>
  { label := "positive", idx := 0, probs := [9234567/10000000] }

/-- A demo environment: token list `["abc123"]`, recording off, the
default `max_content_length` of 3000. -/
def demoEnv : Env :=
  { tokens := ["abc123"], recordEnabled := false, maxContentLength := 3000,
    model := demoModel, writeError := Option.none }

/-! Evaluation lemmas for `predict_endpoint`, one per branch of the
handler. -/

/-- A rejected credential makes the endpoint return the authorizer's
response with an empty trace. -/
theorem predict_endpoint_unauth (env : Env) (cred : Option String) (body : ReqBody)
    (resp : Response) (h : verify_token env.tokens cred = some resp) :
    predict_endpoint env cred body = { response := resp, trace := Trace.none } := by
  unfold predict_endpoint
  rw [h]

/-- With an accepted credential and a note failing validation, the
endpoint returns the catch-all 500 wrapping of the validation
`HTTPException`, with no prediction and no recording. -/
theorem predict_endpoint_invalid (env : Env) (cred : String) (note : String)
    (e : ValidationError) (hc : cred ∈ env.tokens)
    (hval : validateNote note = some e) :
    predict_endpoint env (some cred) (.json (some note)) =
      { response := { status := 500, body := .error (httpExcStr 400 e.message) }
        trace := { validatorRan := true, predictInput := Option.none,
                   recorded := [], errLog := [] } } := by
  have hv : verify_token env.tokens (some cred) = Option.none := by
    simp [verify_token, hc]
  unfold predict_endpoint
  rw [hv]
  simp only [Option.getD_some]
  rw [hval]

/-- With an accepted credential and a validated note, the endpoint
predicts on the note, records, and returns 200. -/
theorem predict_endpoint_ok (env : Env) (cred : String) (note : String)
    (hc : cred ∈ env.tokens) (hval : validateNote note = Option.none) :
    predict_endpoint env (some cred) (.json (some note)) =
      { response := { status := 200,
                      body := .result (predict env.model env.maxContentLength note).label
                                      (predict env.model env.maxContentLength note).score }
        trace := { validatorRan := true,
                   predictInput := some (predict env.model env.maxContentLength note).modelInput,
                   recorded := (record_result env.recordEnabled env.writeError note
                                 (predict env.model env.maxContentLength note).score).1,
                   errLog := (record_result env.recordEnabled env.writeError note
                                 (predict env.model env.maxContentLength note).score).2 } } := by
  have hv : verify_token env.tokens (some cred) = Option.none := by
    simp [verify_token, hc]
  unfold predict_endpoint
  rw [hv]
  simp only [Option.getD_some]
  rw [hval]

/-- The argument of the `learn.predict` call is the truncated text. -/
theorem predict_modelInput (m : Model) (maxContentLength : Nat) (content : String) :
    (predict m maxContentLength content).modelInput =
      validate_content_length maxContentLength content := rfl

/-- A text within the limit is passed through unchanged. -/
theorem validate_content_length_of_le (maxContentLength : Nat) (content : String)
    (h : content.length ≤ maxContentLength) :
    validate_content_length maxContentLength content = content := by
  unfold validate_content_length
  rw [if_neg (Nat.not_lt.mpr h)]

/-- A text over the limit is cut to its first `maxContentLength` characters. -/
theorem validate_content_length_of_gt (maxContentLength : Nat) (content : String)
    (h : maxContentLength < content.length) :
    validate_content_length maxContentLength content = content.take maxContentLength := by
  unfold validate_content_length
  rw [if_pos h]

/-- Validation passes exactly when all three checks pass: non-empty,
length at least 3, not entirely invisible. -/
theorem validateNote_none_iff (note : String) :
    validateNote note = Option.none ↔
      note ≠ "" ∧ ¬(note.length < 3) ∧ is_invisible note = false := by
  unfold validateNote
  by_cases h1 : note = ""
  · simp [h1]
  · rw [if_neg h1]
    by_cases h2 : note.length < 3
    · simp [h1, h2]
    · rw [if_neg h2]
      by_cases h3 : is_invisible note
      · simp [h1, h2, h3]
      · simp [h1, h2, h3]

/-- A body without a `note` field is handled exactly like one whose
`note` field is the empty string. -/
theorem predict_endpoint_json_none (env : Env) (cred : Option String) :
    predict_endpoint env cred (.json Option.none) =
      predict_endpoint env cred (.json (some "")) := rfl

/-- Rounding half to even never goes below a lower integer bound. -/
theorem roundHalfEven_nonneg (x : ℚ) (h : 0 ≤ x) : 0 ≤ roundHalfEven x := by
  have hf : (0 : ℤ) ≤ ⌊x⌋ := Int.floor_nonneg.mpr h
  unfold roundHalfEven
  split
  · exact hf
  · split
    · omega
    · split
      · exact hf
      · omega

/-- Rounding half to even never exceeds an integer upper bound. -/
theorem roundHalfEven_le (x : ℚ) (n : ℤ) (h : x ≤ n) : roundHalfEven x ≤ n := by
  have hf : ⌊x⌋ ≤ n := by
    rw [← Int.floor_intCast (α := ℚ) n]
    exact Int.floor_le_floor h
  have hfx : (⌊x⌋ : ℚ) ≤ x := Int.floor_le x
  unfold roundHalfEven
  split
  · exact hf
  · rename_i h1
    split
    · rename_i h2
      have hlt : (⌊x⌋ : ℚ) < n := by linarith
      have : ⌊x⌋ < n := by exact_mod_cast hlt
      omega
    · rename_i h2
      push_neg at h1
      split
      · exact hf
      · have hlt : (⌊x⌋ : ℚ) < n := by linarith
        have : ⌊x⌋ < n := by exact_mod_cast hlt
        omega

/-- A probability in the unit interval stays there after 4-decimal rounding. -/
theorem format4_mem_unit (p : ℚ) (h0 : 0 ≤ p) (h1 : p ≤ 1) :
    0 ≤ format4 p ∧ format4 p ≤ 1 := by
  have hn : (0 : ℤ) ≤ roundHalfEven (p * 10000) :=
    roundHalfEven_nonneg (p * 10000) (by positivity)
  have hle : roundHalfEven (p * 10000) ≤ (10000 : ℤ) := by
    apply roundHalfEven_le
    push_cast
    linarith
  constructor
  · unfold format4
    apply div_nonneg _ (by norm_num)
    exact_mod_cast hn
  · unfold format4
    rw [div_le_one (by norm_num)]
    exact_mod_cast hle

/-- Claim C1: the spec asks that a note failing a ContentValidator check
(empty, shorter than 3 characters, or entirely invisible) yield HTTP 400
with the corresponding message, stopping before prediction.  The code
does stop before prediction, but its `except Exception` clause catches
the raised `HTTPException(400, msg)` and returns HTTP 500 with body
`{"error": "400: <msg>"}` instead — the defect the spec itself flags in
section 4.5.  This theorem evaluates the endpoint at the three failing
inputs (empty note, note "ab", note of three zero-width spaces) with a
valid token and shows status 500, the wrapped messages, and that the
model was never invoked. -/
theorem C1_validation_returns_500_not_400 :
    (predict_endpoint demoEnv (some "abc123") (.json (some ""))).response =
      { status := 500, body := .error "400: Note is required" } ∧
    (predict_endpoint demoEnv (some "abc123") (.json (some "ab"))).response =
      { status := 500, body := .error "400: Note is too short" } ∧
    (predict_endpoint demoEnv (some "abc123") (.json (some "\u200b\u200b\u200b"))).response =
      { status := 500, body := .error "400: Note contains only invisible characters" } ∧
    (predict_endpoint demoEnv (some "abc123") (.json (some ""))).trace.predictInput = Option.none ∧
    (predict_endpoint demoEnv (some "abc123") (.json (some "ab"))).trace.predictInput = Option.none ∧
    (predict_endpoint demoEnv (some "abc123") (.json (some "\u200b\u200b\u200b"))).trace.predictInput =
      Option.none := by
  refine ⟨?_, ?_, ?_, ?_, ?_, ?_⟩ <;> decide

/-- Claim C2: the Authorizer accepts the bearer credential iff it is a
member of the configured token list; every rejected credential
(including a missing one) yields HTTP 403, and neither the
ContentValidator checks nor the prediction call nor the recorder run. -/
theorem C2_authorizer_gate (env : Env) (cred : Option String) (body : ReqBody) :
    (verify_token env.tokens cred = Option.none ↔ ∃ c, cred = some c ∧ c ∈ env.tokens) ∧
    (∀ resp, verify_token env.tokens cred = some resp →
      (predict_endpoint env cred body).response.status = 403 ∧
      (predict_endpoint env cred body).trace.validatorRan = false ∧
      (predict_endpoint env cred body).trace.predictInput = Option.none ∧
      (predict_endpoint env cred body).trace.recorded = []) := by
  constructor
  · constructor
    · intro h
      match cred with
      | Option.none => simp [verify_token] at h
      | some c =>
        refine ⟨c, rfl, ?_⟩
        by_contra hc
        simp [verify_token, hc] at h
    · rintro ⟨c, rfl, hc⟩
      simp [verify_token, hc]
  · intro resp h
    have hs : resp.status = 403 := by
      match cred with
      | Option.none =>
        simp only [verify_token, Option.some_inj] at h
        rw [← h]
      | some c =>
        by_cases hc : c ∈ env.tokens
        · simp [verify_token, hc] at h
        · simp only [verify_token, if_neg hc, Option.some_inj] at h
          rw [← h]
    rw [predict_endpoint_unauth env cred body resp h]
    exact ⟨hs, rfl, rfl, rfl⟩

/-- Claim C2 witness: with only `"abc123"` configured, the credential
`"zzz"` is rejected: 403, validator not run, model not called, nothing
recorded. -/
theorem C2_authorizer_gate_witness :
    (predict_endpoint demoEnv (some "zzz") (.json (some "Great service today!"))).response.status = 403 ∧
    (predict_endpoint demoEnv (some "zzz") (.json (some "Great service today!"))).trace.validatorRan = false ∧
    (predict_endpoint demoEnv (some "zzz") (.json (some "Great service today!"))).trace.predictInput = Option.none ∧
    (predict_endpoint demoEnv (some "zzz") (.json (some "Great service today!"))).trace.recorded = [] :=
  (C2_authorizer_gate demoEnv (some "zzz") (.json (some "Great service today!"))).2
    { status := 403, body := .detail "Invalid or missing token" } (by decide)

/-- Claim C3 counterexample: the claim counts all whitespace as
non-printable, but Python's `isprintable` (and hence `is_invisible`)
treats U+0020 SPACE as printable.  The note of three spaces has length 3,
consists only of whitespace characters, yet `is_invisible` is `false`,
validation passes, and the endpoint proceeds to prediction with a 200
response — it does not fail with InvisibleContent. -/
theorem C3_counterexample_spaces :
    3 ≤ "   ".length ∧
    (∀ c ∈ "   ".data, c.isWhitespace) ∧
    is_invisible "   " = false ∧
    validateNote "   " = Option.none ∧
    (predict_endpoint demoEnv (some "abc123") (.json (some "   "))).response.status = 200 ∧
    (predict_endpoint demoEnv (some "abc123") (.json (some "   "))).trace.predictInput =
      some "   " := by
  refine ⟨?_, ?_, ?_, ?_, ?_, ?_⟩ <;> decide

/-- Claim C3 (amended): for every note of length at least 3 in which
every character is non-printable in the sense of Python `isprintable`
(control characters, format/zero-width characters, and whitespace other
than U+0020 SPACE count as non-printable; SPACE itself is printable),
validation fails with InvisibleContent, in particular also when the note
exceeds the minimum length. -/
theorem C3_invisible_rejected (note : String) (hlen : 3 ≤ note.length)
    (hinv : ∀ c ∈ note.data, pyIsPrintable c = false) :
    validateNote note = some ValidationError.InvisibleContent := by
  have hne : note ≠ "" := by
    intro h
    rw [h] at hlen
    simp at hlen
  have hinvis : is_invisible note = true := by
    unfold is_invisible
    rw [Bool.not_eq_true', List.any_eq_false]
    intro c hc
    simp [hinv c hc]
  unfold validateNote
  rw [if_neg hne, if_neg (Nat.not_lt.mpr hlen), if_pos hinvis]

/-- Claim C3 witness: a note of seven zero-width spaces (well above the
minimum length) is rejected as InvisibleContent. -/
theorem C3_invisible_rejected_witness :
    validateNote "\u200b\u200b\u200b\u200b\u200b\u200b\u200b" =
      some ValidationError.InvisibleContent :=
  C3_invisible_rejected "\u200b\u200b\u200b\u200b\u200b\u200b\u200b" (by decide) (by decide)

/-- A demo environment with a small `max_content_length` of 5, to
exercise truncation. -/
def shortEnv : Env :=
  { tokens := ["abc123"], recordEnabled := false, maxContentLength := 5,
    model := demoModel, writeError := Option.none }

/-- Claim C4: for a validated note longer than `max_content_length`, the
text passed to `learn.predict` is exactly the first `max_content_length`
characters; a note within the limit is passed unchanged; and the
validation checks are applied to the original untruncated note — their
verdict on the original note alone decides whether prediction happens at
all. -/
theorem C4_truncation_boundary (env : Env) (cred : String) (note : String)
    (hc : cred ∈ env.tokens) :
    (validateNote note = Option.none →
      (predict_endpoint env (some cred) (.json (some note))).trace.predictInput =
        some (validate_content_length env.maxContentLength note) ∧
      (env.maxContentLength < note.length →
        (predict_endpoint env (some cred) (.json (some note))).trace.predictInput =
          some (note.take env.maxContentLength)) ∧
      (note.length ≤ env.maxContentLength →
        (predict_endpoint env (some cred) (.json (some note))).trace.predictInput =
          some note)) ∧
    (∀ e, validateNote note = some e →
      (predict_endpoint env (some cred) (.json (some note))).trace.predictInput =
        Option.none) := by
  constructor
  · intro hval
    rw [predict_endpoint_ok env cred note hc hval]
    refine ⟨rfl, ?_, ?_⟩
    · intro hgt
      show some (predict env.model env.maxContentLength note).modelInput = _
      rw [predict_modelInput, validate_content_length_of_gt _ _ hgt]
    · intro hle
      show some (predict env.model env.maxContentLength note).modelInput = _
      rw [predict_modelInput, validate_content_length_of_le _ _ hle]
  · intro e hval
    rw [predict_endpoint_invalid env cred note e hc hval]

/-- Claim C4 witness: with the limit at 5, the 8-character note
`"abcdefgh"` passes validation and the model receives `"abcde"`. -/
theorem C4_truncation_boundary_witness :
    (predict_endpoint shortEnv (some "abc123") (.json (some "abcdefgh"))).trace.predictInput =
      some ("abcdefgh".take 5) :=
  ((C4_truncation_boundary shortEnv "abc123" "abcdefgh" (by decide)).1 (by decide)).2.1
    (by decide)

/-- The spec's example probability `0.9234567` rounds to `0.9235`. -/
theorem format4_example : format4 (9234567 / 10000000) = 9235 / 10000 := by
  have hx : (9234567 / 10000000 : ℚ) * 10000 = 9234567 / 1000 := by norm_num
  have hfl : ⌊(9234567 / 1000 : ℚ)⌋ = 9234 := by
    rw [Int.floor_eq_iff]
    constructor <;> norm_num
  unfold format4 roundHalfEven
  rw [hx, hfl]
  norm_num

/-- Claim C5: for every successful prediction the response's score is
the model's probability for the predicted label rounded to 4 decimal
places (half to even); `0.9234567` rounds to `0.9235`; and the rounded
score stays in the unit interval whenever the probability is in it. -/
theorem C5_score_rounded (env : Env) (cred : String) (note : String)
    (hc : cred ∈ env.tokens) (hval : validateNote note = Option.none) :
    (predict_endpoint env (some cred) (.json (some note))).response.body =
      .result (env.model (validate_content_length env.maxContentLength note)).label
        (format4 (modelScore env.model (validate_content_length env.maxContentLength note))) ∧
    format4 (9234567 / 10000000) = 9235 / 10000 ∧
    (∀ p : ℚ, 0 ≤ p → p ≤ 1 → 0 ≤ format4 p ∧ format4 p ≤ 1) := by
  refine ⟨?_, format4_example, format4_mem_unit⟩
  rw [predict_endpoint_ok env cred note hc hval]
  rfl

/-- Claim C5 witness: the spec's own scenario.  Token `"abc123"`, note
`"Great service today!"`, model probability `0.9234567`: the response is
`200` with label `"positive"` and score `0.9235`. -/
theorem C5_score_rounded_witness :
    (predict_endpoint demoEnv (some "abc123") (.json (some "Great service today!"))).response.body =
      .result (demoEnv.model
          (validate_content_length demoEnv.maxContentLength "Great service today!")).label
        (format4 (modelScore demoEnv.model
          (validate_content_length demoEnv.maxContentLength "Great service today!"))) ∧
    (predict_endpoint demoEnv (some "abc123") (.json (some "Great service today!"))).response.status =
      200 ∧
    format4 (modelScore demoEnv.model
        (validate_content_length demoEnv.maxContentLength "Great service today!")) =
      9235 / 10000 :=
  ⟨(C5_score_rounded demoEnv "abc123" "Great service today!" (by decide) (by decide)).1,
   by decide, format4_example⟩

/-- Claim C6: with recording enabled, a successful prediction appends
exactly the one line `note ++ "\t" ++ score ++ "\n"` to the record file;
when the write fails, nothing is appended, the failure is logged to the
error stream, and the response — still 200 with the same payload — is
unchanged; with recording disabled nothing is written. -/
theorem C6_recording_best_effort (env : Env) (cred : String) (note : String) (e : String)
    (hc : cred ∈ env.tokens) (hval : validateNote note = Option.none) :
    (predict_endpoint { env with recordEnabled := true, writeError := Option.none }
        (some cred) (.json (some note))).trace.recorded =
      [note ++ "\t" ++ pyFloatStr (predict env.model env.maxContentLength note).score ++ "\n"] ∧
    (predict_endpoint { env with recordEnabled := true, writeError := some e }
        (some cred) (.json (some note))).trace.recorded = [] ∧
    (predict_endpoint { env with recordEnabled := true, writeError := some e }
        (some cred) (.json (some note))).trace.errLog = ["Record failed: " ++ e] ∧
    (predict_endpoint { env with recordEnabled := true, writeError := some e }
        (some cred) (.json (some note))).response =
      (predict_endpoint { env with recordEnabled := true, writeError := Option.none }
        (some cred) (.json (some note))).response ∧
    (predict_endpoint { env with recordEnabled := true, writeError := some e }
        (some cred) (.json (some note))).response.status = 200 ∧
    (predict_endpoint { env with recordEnabled := false }
        (some cred) (.json (some note))).trace.recorded = [] := by
  have h1 := predict_endpoint_ok { env with recordEnabled := true, writeError := Option.none }
    cred note hc hval
  have h2 := predict_endpoint_ok { env with recordEnabled := true, writeError := some e }
    cred note hc hval
  have h3 := predict_endpoint_ok { env with recordEnabled := false } cred note hc hval
  rw [h1, h2, h3]
  exact ⟨rfl, rfl, rfl, rfl, rfl, rfl⟩

/-- A deterministic demo model with probability `0.5`. -/
def halfModel : Model := fun _ =>
  { label := "neutral", idx := 0, probs := [5000 / 10000] }

/-- A demo environment with recording enabled and the `0.5` model. -/
def recordEnv : Env :=
  { tokens := ["abc123"], recordEnabled := true, maxContentLength := 3000,
    model := halfModel, writeError := Option.none }

/-- Claim C6 witness: the note `"okay"` with model probability `0.5`
gets the line `"okay\t0.5\n"` appended; with a failing write the
response is still 200 and the failure is only logged. -/
theorem C6_recording_best_effort_witness :
    (predict_endpoint { recordEnv with recordEnabled := true, writeError := Option.none }
        (some "abc123") (.json (some "okay"))).trace.recorded =
      ["okay" ++ "\t" ++ pyFloatStr (predict recordEnv.model recordEnv.maxContentLength "okay").score
        ++ "\n"] ∧
    (predict_endpoint { recordEnv with recordEnabled := true, writeError := some "disk full" }
        (some "abc123") (.json (some "okay"))).trace.recorded = [] ∧
    (predict_endpoint { recordEnv with recordEnabled := true, writeError := some "disk full" }
        (some "abc123") (.json (some "okay"))).trace.errLog = ["Record failed: " ++ "disk full"] ∧
    (predict_endpoint { recordEnv with recordEnabled := true, writeError := some "disk full" }
        (some "abc123") (.json (some "okay"))).response.status = 200 := by
  have h := C6_recording_best_effort recordEnv "abc123" "okay" "disk full"
    (by decide) (by decide)
  exact ⟨h.1, h.2.1, h.2.2.1, h.2.2.2.2.1⟩

/-- Claim C7: the model's predict capability is invoked only on behalf
of a note that passed all three ContentValidator checks: whenever the
trace shows a `learn.predict` call, the request body was a JSON object,
the note extracted from it is non-empty, at least 3 characters long, not
entirely invisible, and validation returned no error. -/
theorem C7_predict_only_validated (env : Env) (cred : Option String) (body : ReqBody)
    (t : String)
    (h : (predict_endpoint env cred body).trace.predictInput = some t) :
    ∃ note : String,
      (∃ nf : Option String, body = .json nf ∧ nf.getD "" = note) ∧
      note ≠ "" ∧ ¬(note.length < 3) ∧ is_invisible note = false ∧
      validateNote note = Option.none := by
  cases cred with
  | none =>
    rw [predict_endpoint_unauth env Option.none body
      { status := 403, body := .detail "Not authenticated" } rfl] at h
    simp [Trace.none] at h
  | some c =>
    by_cases hc : c ∈ env.tokens
    · cases body with
      | malformed err =>
        have hv : verify_token env.tokens (some c) = Option.none := by
          simp [verify_token, hc]
        have hmal : predict_endpoint env (some c) (.malformed err) =
            { response := { status := 500, body := .error err }, trace := Trace.none } := by
          unfold predict_endpoint
          rw [hv]
        rw [hmal] at h
        simp [Trace.none] at h
      | json nf =>
        cases hnf : nf with
        | none =>
          rw [hnf, predict_endpoint_json_none env (some c),
            predict_endpoint_invalid env c "" ValidationError.MissingInput hc rfl] at h
          simp at h
        | some note =>
          rw [hnf] at h
          rcases hval : validateNote note with _ | err
          · exact ⟨note, ⟨some note, rfl, rfl⟩,
              (validateNote_none_iff note).mp hval |>.1,
              ((validateNote_none_iff note).mp hval).2.1,
              ((validateNote_none_iff note).mp hval).2.2, hval⟩
          · rw [predict_endpoint_invalid env c note err hc hval] at h
            simp at h
    · rw [predict_endpoint_unauth env (some c) body
        { status := 403, body := .detail "Invalid or missing token" }
        (by simp [verify_token, hc])] at h
      simp [Trace.none] at h

/-- Claim C7 witness: the demo request that does reach the model
satisfies all three checks. -/
theorem C7_predict_only_validated_witness :
    ∃ note : String,
      (∃ nf : Option String,
        ReqBody.json (some "Great service today!") = ReqBody.json nf ∧ nf.getD "" = note) ∧
      note ≠ "" ∧ ¬(note.length < 3) ∧ is_invisible note = false ∧
      validateNote note = Option.none :=
  C7_predict_only_validated demoEnv (some "abc123") (.json (some "Great service today!"))
    "Great service today!" (by decide)

/-- Claim C8: a request body without a `note` field makes the handler
extract the empty string (no parse error), the empty note fails
validation with MissingInput ("Note is required"), and the endpoint
treats the absent field exactly like a present-but-empty one. -/
theorem C8_absent_note_defaults_empty (env : Env) (cred : Option String) :
    (Option.none : Option String).getD "" = "" ∧
    validateNote "" = some ValidationError.MissingInput ∧
    ValidationError.message ValidationError.MissingInput = "Note is required" ∧
    predict_endpoint env cred (.json Option.none) =
      predict_endpoint env cred (.json (some "")) :=
  ⟨rfl, rfl, rfl, rfl⟩

/-- Claim C9: prediction is deterministic — in the pure embedding the
model is a function, so two invocations of the prediction pipeline on
the same note under the same environment produce identical
`(label, score)` pairs. -/
theorem C9_deterministic (env : Env) (cred : Option String) (nf : Option String)
    (l1 l2 : String) (s1 s2 : ℚ)
    (h1 : (predict_endpoint env cred (.json nf)).response.body = .result l1 s1)
    (h2 : (predict_endpoint env cred (.json nf)).response.body = .result l2 s2) :
    l1 = l2 ∧ s1 = s2 := by
  rw [h1] at h2
  injection h2 with hl hs
  exact ⟨hl, hs⟩

/-- Claim C9 witness: two runs of the demo request agree on the label
(and on the score). -/
theorem C9_deterministic_witness : "positive" = "positive" ∧
    format4 (modelScore demoEnv.model
        (validate_content_length demoEnv.maxContentLength "Great service today!")) =
      format4 (modelScore demoEnv.model
        (validate_content_length demoEnv.maxContentLength "Great service today!")) :=
  C9_deterministic demoEnv (some "abc123") (some "Great service today!")
    "positive" "positive" _ _
    (by rw [predict_endpoint_ok demoEnv "abc123" "Great service today!" (by decide) (by decide)]
        rfl)
    (by rw [predict_endpoint_ok demoEnv "abc123" "Great service today!" (by decide) (by decide)]
        rfl)

/-- Claim C10: when a note longer than `max_content_length` is predicted
successfully with recording enabled, the line appended to the record
file carries the full original note — which differs from the truncated
text handed to the model. -/
theorem C10_record_keeps_full_note (env : Env) (cred : String) (note : String)
    (hc : cred ∈ env.tokens) (hval : validateNote note = Option.none)
    (hlen : env.maxContentLength < note.length)
    (hrec : env.recordEnabled = true) (hok : env.writeError = Option.none) :
    (predict_endpoint env (some cred) (.json (some note))).trace.recorded =
      [note ++ "\t" ++ pyFloatStr (predict env.model env.maxContentLength note).score ++ "\n"] ∧
    (predict_endpoint env (some cred) (.json (some note))).trace.predictInput =
      some (note.take env.maxContentLength) ∧
    note ≠ note.take env.maxContentLength := by
  rw [predict_endpoint_ok env cred note hc hval]
  refine ⟨?_, ?_, ?_⟩
  · rw [hrec, hok]
    rfl
  · show some (predict env.model env.maxContentLength note).modelInput = _
    rw [predict_modelInput, validate_content_length_of_gt _ _ hlen]
  · intro hEq
    have hL : note.length = (note.take env.maxContentLength).length := by rw [← hEq]
    rw [String.take_eq] at hL
    simp only [String.length, List.length_take] at hL
    simp only [String.length] at hlen
    omega

/-- Claim C10 witness: with the limit at 5, the note `"abcdefgh"` is
recorded in full while the model only saw `"abcde"`. -/
theorem C10_record_keeps_full_note_witness :
    (predict_endpoint { shortEnv with recordEnabled := true } (some "abc123")
        (.json (some "abcdefgh"))).trace.recorded =
      ["abcdefgh" ++ "\t" ++ pyFloatStr (predict ({ shortEnv with recordEnabled := true } : Env).model
          ({ shortEnv with recordEnabled := true } : Env).maxContentLength "abcdefgh").score ++ "\n"] ∧
    (predict_endpoint { shortEnv with recordEnabled := true } (some "abc123")
        (.json (some "abcdefgh"))).trace.predictInput = some ("abcdefgh".take 5) ∧
    "abcdefgh" ≠ "abcdefgh".take 5 :=
  C10_record_keeps_full_note { shortEnv with recordEnabled := true } "abc123" "abcdefgh"
    (by decide) (by decide) (by decide) rfl rfl

end ModelServer
